import Mathlib

/-!
Shallow embedding of export_places_to_sheet.py.

The script queries the Places text-search endpoint (following pagination
tokens), fetches per-place details, and writes a header row plus one row per
successfully detailed place into a newly created spreadsheet.

Modelling choices:
  * JSON numbers are modelled as rationals (Rat); an output cell is either a
    string or a number, mirroring the mixed-type Python lists.
  * The search endpoint is modelled as the finite sequence of responses the
    server returns to successive requests; the client consumes them in order
    and we record the trace of requests it issues, so that the pagination
    contract (one follow-up request per token, carrying that token) is
    checkable.  An empty remaining sequence models a server that stops
    answering, which the real script cannot observe as a value; it surfaces
    here as an error.
  * The details endpoint is modelled as a function from place identifier to
    response.
  * Python dicts built in main are modelled as association lists in insertion
    order; d[h] is List.lookup.  Python truthiness of a string or token is
    modelled explicitly (None or the empty string is falsy); truthiness of the
    detail dict is emptiness of all nine requested fields, since the request
    restricts the response to exactly those fields.
  * Side effects of the Sheets and Drive calls are captured in a MainOutput
    record: the rows written, the title used for creation, the generated
    spreadsheet identifier, the (email, role) pairs shared with, and the
    printed URL.  A run that raises is an Except.error and produces no
    MainOutput, hence creates no spreadsheet.
-/

/-- A cell value written to the sheet: either a string or a JSON number. -/
inductive Cell where
  | str : String → Cell
  | num : Rat → Cell
deriving DecidableEq, Repr

/-- A single entry of the results array of a text-search response.  The
script reads only its place_id key (absent key modelled as none). -/
structure SearchResult where
  place_id : Option String
deriving DecidableEq, Repr

/-- A text-search response: status field, results array (default empty) and
optional next_page_token, as read via resp.get in fetch_all_places. -/
structure SearchResp where
  status : Option String
  results : List SearchResult
  next_page_token : Option String
deriving DecidableEq, Repr

/-- A request to the text-search endpoint: the first call carries the query
and the key, follow-up calls carry the pagination token and the key. -/
inductive SearchReq where
  | byQuery : String → String → SearchReq
  | byToken : String → String → SearchReq
deriving DecidableEq, Repr

/-- Python truthiness test on the optional token: None and "" are falsy. -/
def tokenFalsy : Option String → Bool
  | none => true
  | some t => t == ""

/-- The status check of fetch_all_places: status in ("OK", "ZERO_RESULTS"). -/
def statusAccepted (resp : SearchResp) : Bool :=
  resp.status == some "OK" || resp.status == some "ZERO_RESULTS"

/-- The pagination loop of fetch_all_places.  pages is the sequence of
responses the server returns to successive requests; req is the request about
to be issued.  Returns the accumulated places together with the trace of
requests issued.  A non-accepted status raises; the time.sleep(2) between
receiving a token and using it has no observable value and is not modelled. -/
def fetchPages (key : String) (req : SearchReq) :
    List SearchResp → Except String (List SearchResult × List SearchReq)
  | [] => Except.error "no response from Places TextSearch"
  | resp :: rest =>
    if statusAccepted resp then
      match resp.next_page_token with
      | none => Except.ok (resp.results, [req])
      | some t =>
        if t == "" then Except.ok (resp.results, [req])
        else
          match fetchPages key (SearchReq.byToken t key) rest with
          | Except.error e => Except.error e
          | Except.ok (more, reqs) => Except.ok (resp.results ++ more, req :: reqs)
    else Except.error "Places TextSearch error"

/-- fetch_all_places: the first request carries the query and the key. -/
def fetch_all_places (key query : String) (pages : List SearchResp) :
    Except String (List SearchResult × List SearchReq) :=
  fetchPages key (SearchReq.byQuery query key) pages

/-- A well-formed finite page sequence: every page has an accepted status,
every page but the last carries a truthy token, and the last does not. -/
def goodPages : List SearchResp → Bool
  | [] => false
  | [p] => statusAccepted p && tokenFalsy p.next_page_token
  | p :: q :: rest =>
    statusAccepted p && !tokenFalsy p.next_page_token && goodPages (q :: rest)

/-- The follow-up requests determined by the tokens of a page sequence: one
request per token of a non-final page, carrying that token and the key. -/
def followUpReqs (key : String) : List SearchResp → List SearchReq
  | [] => []
  | [_] => []
  | p :: q :: rest =>
    (match p.next_page_token with
     | none => []
     | some t => [SearchReq.byToken t key]) ++ followUpReqs key (q :: rest)

/-- The geometry.location object of a detail result. -/
structure Location where
  lat : Option Rat
  lng : Option Rat
deriving DecidableEq, Repr

/-- The geometry object of a detail result. -/
structure Geometry where
  location : Option Location
deriving DecidableEq, Repr

/-- The result object of a details response, restricted by the fields
parameter to the nine requested fields; an absent key is none. -/
structure DetailResult where
  name : Option String
  formatted_address : Option String
  international_phone_number : Option String
  website : Option String
  place_id : Option String
  types : Option (List String)
  rating : Option Rat
  user_ratings_total : Option Rat
  geometry : Option Geometry
deriving DecidableEq, Repr

/-- The empty dict: no key present. -/
def emptyDetail : DetailResult :=
  ⟨none, none, none, none, none, none, none, none, none⟩

/-- Python truthiness of the detail dict: it is falsy iff it has no key,
i.e. all nine requested fields are absent. -/
def detailIsEmpty (d : DetailResult) : Bool :=
  d.name.isNone && d.formatted_address.isNone &&
  d.international_phone_number.isNone && d.website.isNone &&
  d.place_id.isNone && d.types.isNone && d.rating.isNone &&
  d.user_ratings_total.isNone && d.geometry.isNone

/-- A details endpoint response: status field and optional result object. -/
structure DetailResp where
  status : Option String
  result : Option DetailResult
deriving DecidableEq, Repr

/-- fetch_place_details: returns the empty dict unless status is "OK", else
the result object, defaulting to the empty dict when absent. -/
def fetch_place_details (resp : DetailResp) : DetailResult :=
  if resp.status = some "OK" then resp.result.getD emptyDetail
  else emptyDetail

/-- detail.get(field, "") for a numeric field: the number if present, else
the empty string. -/
def cellOfNum : Option Rat → Cell
  | none => Cell.str ""
  | some v => Cell.num v

/-- detail.get("geometry", \x7b\x7d).get("location", \x7b\x7d).get("lat", ""). -/
def latCell (d : DetailResult) : Cell :=
  match d.geometry with
  | none => Cell.str ""
  | some g =>
    match g.location with
    | none => Cell.str ""
    | some l =>
      match l.lat with
      | none => Cell.str ""
      | some v => Cell.num v

/-- detail.get("geometry", \x7b\x7d).get("location", \x7b\x7d).get("lng", ""). -/
def lngCell (d : DetailResult) : Cell :=
  match d.geometry with
  | none => Cell.str ""
  | some g =>
    match g.location with
    | none => Cell.str ""
    | some l =>
      match l.lng with
      | none => Cell.str ""
      | some v => Cell.num v

/-- The dict literal appended to detailed in main, as an association list in
insertion order. -/
def mkRecord (detail : DetailResult) : List (String × Cell) :=
  [("name", Cell.str (detail.name.getD "")),
   ("formatted_address", Cell.str (detail.formatted_address.getD "")),
   ("international_phone_number",
     Cell.str (detail.international_phone_number.getD "")),
   ("website", Cell.str (detail.website.getD "")),
   ("place_id", Cell.str (detail.place_id.getD "")),
   ("types", Cell.str (String.intercalate "," (detail.types.getD []))),
   ("rating", cellOfNum detail.rating),
   ("user_ratings_total", cellOfNum detail.user_ratings_total),
   ("lat", latCell detail),
   ("lng", lngCell detail)]

/-- The fixed header list of main. -/
def header : List String :=
  ["name", "formatted_address", "international_phone_number",
   "website", "place_id", "types", "rating",
   "user_ratings_total", "lat", "lng"]

/-- The header row as written to the sheet. -/
def headerRow : List Cell := header.map Cell.str

/-- The comprehension d[h] for h in header.  A dict built by mkRecord has
exactly the header keys, so the lookup never misses; the getD default merely
totalises the KeyError case of Python indexing. -/
def rowFromDict (d : List (String × Cell)) : List Cell :=
  header.map (fun h => (d.lookup h).getD (Cell.str ""))

/-- rows = [header] + [[d[h] for h in header] for d in detailed]. -/
def buildRows (detailed : List (List (String × Cell))) : List (List Cell) :=
  headerRow :: detailed.map rowFromDict

/-- The per-result loop of main: skip a result whose place_id is falsy
(absent or empty) without a detail call; otherwise call the details endpoint
and append a record unless the returned dict is empty.  Returns the records
in order together with the trace of place identifiers passed to the details
endpoint. -/
def processPlaces (detailOf : String → DetailResp) :
    List SearchResult → List (List (String × Cell)) × List String
  | [] => ([], [])
  | p :: rest =>
    match p.place_id with
    | none => processPlaces detailOf rest
    | some pid =>
      if pid == "" then processPlaces detailOf rest
      else
        let detail := fetch_place_details (detailOf pid)
        let r := processPlaces detailOf rest
        if detailIsEmpty detail then (r.1, pid :: r.2)
        else (mkRecord detail :: r.1, pid :: r.2)

/-- The parsed command line: the positional query, the share list already
split into (email, role) pairs, and the notification flag. -/
structure Args where
  query : String
  share : List (String × String)
  notify : Bool

/-- The observable effects of a completed run. -/
structure MainOutput where
  rows : List (List Cell)
  createdTitle : String
  spreadsheetId : String
  sharedWith : List (String × String)
  notify : Bool
  url : String
deriving Repr

/-- main: search with pagination, detail each result, build header plus data
rows, create the spreadsheet titled with the raw query (sid is the identifier
the service generates), share with each (email, role) pair, write the rows,
and print the URL obtained by appending sid to the fixed template. -/
def mainRun (key : String) (args : Args) (pages : List SearchResp)
    (detailOf : String → DetailResp) (sid : String) :
    Except String MainOutput :=
  match fetch_all_places key args.query pages with
  | Except.error e => Except.error e
  | Except.ok (basic_places, _reqs) =>
    let detailed := (processPlaces detailOf basic_places).1
    let rows := buildRows detailed
    Except.ok
      ⟨rows, args.query, sid, args.share, args.notify,
       "https://docs.google.com/spreadsheets/d/" ++ sid⟩

/-- The canonical empty search response: ZERO_RESULTS status, empty results
array, no token. -/
def zeroResultsPage : SearchResp := ⟨some "ZERO_RESULTS", [], none⟩

/-- C10: the identifier check in main uses truthiness: a search result whose
place_id key is present but holds the empty string is skipped without a
detail call, exactly as if the identifier were missing. -/
theorem empty_string_id_skipped (detailOf : String → DetailResp)
    (rest : List SearchResult) :
    processPlaces detailOf (⟨some ""⟩ :: rest) = processPlaces detailOf rest := by
  simp [processPlaces]

/-- C6: a search result with no place identifier is skipped by main without a
detail call (the call trace is unchanged) and contributes no record. -/
theorem missing_id_skipped (detailOf : String → DetailResp) (p : SearchResult)
    (rest : List SearchResult) (h : p.place_id = none) :
    processPlaces detailOf (p :: rest) = processPlaces detailOf rest := by
  rcases p with ⟨pid⟩
  cases h
  simp [processPlaces]

theorem missing_id_skipped_witness :
    processPlaces (fun _ => ⟨none, none⟩) [⟨none⟩] =
      processPlaces (fun _ => ⟨none, none⟩) [] :=
  missing_id_skipped (fun _ => ⟨none, none⟩) ⟨none⟩ [] rfl

/-- C5: for a query whose search returns zero results (status ZERO_RESULTS,
empty results array, no token), the table written to the spreadsheet is
exactly the header row. -/
theorem zero_results_header_only (key : String) (args : Args)
    (detailOf : String → DetailResp) (sid : String) :
    mainRun key args [zeroResultsPage] detailOf sid =
      Except.ok ⟨[headerRow], args.query, sid, args.share, args.notify,
        "https://docs.google.com/spreadsheets/d/" ++ sid⟩ := rfl

/-- C4: a ZERO_RESULTS search response is treated as success contributing an
empty result set; any status other than OK or ZERO_RESULTS raises a fatal
error, and a run whose search raises ends in that error, producing no
MainOutput, hence no spreadsheet. -/
theorem search_status_fatal :
    (∀ (key : String) (req : SearchReq),
      fetchPages key req [zeroResultsPage] = Except.ok ([], [req])) ∧
    (∀ resp : SearchResp, resp.status ≠ some "OK" →
      resp.status ≠ some "ZERO_RESULTS" →
      ∀ (key : String) (req : SearchReq) (rest : List SearchResp),
      fetchPages key req (resp :: rest) =
        Except.error "Places TextSearch error") ∧
    (∀ (key : String) (args : Args) (pages : List SearchResp)
      (detailOf : String → DetailResp) (sid : String) (e : String),
      fetch_all_places key args.query pages = Except.error e →
      mainRun key args pages detailOf sid = Except.error e) := by
  refine ⟨fun key req => rfl, ?_, ?_⟩
  · intro resp h1 h2 key req rest
    have hacc : statusAccepted resp = false := by
      simp [statusAccepted, h1, h2]
    simp [fetchPages, hacc]
  · intro key args pages detailOf sid e h
    simp [mainRun, h]

theorem search_status_fatal_witness :
    fetchPages "k" (SearchReq.byQuery "q" "k")
        [⟨some "REQUEST_DENIED", [], none⟩] =
      Except.error "Places TextSearch error" ∧
    mainRun "k" ⟨"q", [], false⟩ [⟨some "REQUEST_DENIED", [], none⟩]
        (fun _ => ⟨none, none⟩) "S" =
      Except.error "Places TextSearch error" :=
  ⟨search_status_fatal.2.1 ⟨some "REQUEST_DENIED", [], none⟩ (by decide)
      (by decide) "k" (SearchReq.byQuery "q" "k") [],
   search_status_fatal.2.2 "k" ⟨"q", [], false⟩
      [⟨some "REQUEST_DENIED", [], none⟩] (fun _ => ⟨none, none⟩) "S"
      "Places TextSearch error" rfl⟩

/-- The record list produced by the loop of main never has more entries than
the search result list it consumes. -/
theorem processPlaces_records_le (detailOf : String → DetailResp) :
    ∀ places : List SearchResult,
      (processPlaces detailOf places).1.length ≤ places.length
  | [] => by simp [processPlaces]
  | p :: rest => by
    have ih := processPlaces_records_le detailOf rest
    rcases p with ⟨pid⟩
    cases pid with
    | none => simpa [processPlaces] using Nat.le_succ_of_le ih
    | some s =>
      by_cases hs : s == ""
      · simpa [processPlaces, hs] using Nat.le_succ_of_le ih
      · by_cases he : detailIsEmpty (fetch_place_details (detailOf s))
        · simpa [processPlaces, hs, he] using Nat.le_succ_of_le ih
        · simpa [processPlaces, hs, he] using ih

/-- C3: a detail fetch whose response status is not OK yields the empty dict;
a place whose detail fetch yields the empty dict contributes no record, while
the run continues; hence the number of data rows (table rows beyond the
header) is at most the number of search results. -/
theorem detail_nonok_excluded :
    (∀ resp : DetailResp, resp.status ≠ some "OK" →
      fetch_place_details resp = emptyDetail) ∧
    (∀ (detailOf : String → DetailResp) (pid : Option String)
      (rest : List SearchResult),
      (∀ s, pid = some s → fetch_place_details (detailOf s) = emptyDetail) →
      (processPlaces detailOf (⟨pid⟩ :: rest)).1 =
        (processPlaces detailOf rest).1) ∧
    (∀ (detailOf : String → DetailResp) (places : List SearchResult),
      (buildRows (processPlaces detailOf places).1).length ≤
        places.length + 1) := by
  refine ⟨?_, ?_, ?_⟩
  · intro resp h
    simp [fetch_place_details, h]
  · intro detailOf pid rest h
    cases pid with
    | none => simp [processPlaces]
    | some s =>
      by_cases hs : s == ""
      · simp [processPlaces, hs]
      · have he : detailIsEmpty (fetch_place_details (detailOf s)) = true := by
          rw [h s rfl]; rfl
        simp [processPlaces, hs, he]
  · intro detailOf places
    have := processPlaces_records_le detailOf places
    simp only [buildRows, List.length_cons, List.length_map]
    omega

theorem detail_nonok_excluded_witness :
    fetch_place_details ⟨some "NOT_FOUND", some emptyDetail⟩ = emptyDetail ∧
    (processPlaces (fun _ => ⟨some "NOT_FOUND", none⟩) [⟨some "x"⟩]).1 =
      (processPlaces (fun _ => ⟨some "NOT_FOUND", none⟩) []).1 :=
  ⟨detail_nonok_excluded.1 ⟨some "NOT_FOUND", some emptyDetail⟩ (by decide),
   detail_nonok_excluded.2.1 (fun _ => ⟨some "NOT_FOUND", none⟩) (some "x") []
     (fun s _ => detail_nonok_excluded.1 ⟨some "NOT_FOUND", none⟩ (by decide))⟩

/-- C9: a details response whose status is OK but whose result object is
missing or empty yields the empty dict from fetch_place_details, and main
then skips the place exactly as if the fetch had failed: the detail call is
issued (for a truthy identifier) but no record is appended. -/
theorem detail_ok_empty_result_skipped :
    fetch_place_details ⟨some "OK", none⟩ = emptyDetail ∧
    fetch_place_details ⟨some "OK", some emptyDetail⟩ = emptyDetail ∧
    (∀ (detailOf : String → DetailResp) (pid : String)
      (rest : List SearchResult), pid ≠ "" →
      fetch_place_details (detailOf pid) = emptyDetail →
      (processPlaces detailOf (⟨some pid⟩ :: rest)).1 =
        (processPlaces detailOf rest).1 ∧
      (processPlaces detailOf (⟨some pid⟩ :: rest)).2 =
        pid :: (processPlaces detailOf rest).2) := by
  refine ⟨rfl, rfl, ?_⟩
  intro detailOf pid rest hpid hdet
  have hs : (pid == "") = false := by
    simpa using hpid
  have he : detailIsEmpty (fetch_place_details (detailOf pid)) = true := by
    rw [hdet]; rfl
  constructor <;> simp [processPlaces, hs, he]

theorem detail_ok_empty_result_skipped_witness :
    (processPlaces (fun _ => ⟨some "OK", none⟩) [⟨some "x"⟩]).1 =
      (processPlaces (fun _ => ⟨some "OK", none⟩) []).1 ∧
    (processPlaces (fun _ => ⟨some "OK", none⟩) [⟨some "x"⟩]).2 =
      "x" :: (processPlaces (fun _ => ⟨some "OK", none⟩) []).2 :=
  detail_ok_empty_result_skipped.2.2 (fun _ => ⟨some "OK", none⟩) "x" []
    (by decide) detail_ok_empty_result_skipped.1

/-- C8: in the record built for a successfully fetched detail, every one of
the ten output fields defaults to the empty string when the corresponding
field is absent from the detail response — for lat and lng also when the
geometry or location objects are missing — and the records are serialized
into the output rows exactly once, unchanged (the embedding is pure, so a
record is never mutated after creation). -/
theorem detail_field_defaults (d : DetailResult) :
    (d.name = none → (mkRecord d).lookup "name" = some (Cell.str "")) ∧
    (d.formatted_address = none →
      (mkRecord d).lookup "formatted_address" = some (Cell.str "")) ∧
    (d.international_phone_number = none →
      (mkRecord d).lookup "international_phone_number" = some (Cell.str "")) ∧
    (d.website = none → (mkRecord d).lookup "website" = some (Cell.str "")) ∧
    (d.place_id = none → (mkRecord d).lookup "place_id" = some (Cell.str "")) ∧
    (d.types = none → (mkRecord d).lookup "types" = some (Cell.str "")) ∧
    (d.rating = none → (mkRecord d).lookup "rating" = some (Cell.str "")) ∧
    (d.user_ratings_total = none →
      (mkRecord d).lookup "user_ratings_total" = some (Cell.str "")) ∧
    ((d.geometry.bind Geometry.location).bind Location.lat = none →
      (mkRecord d).lookup "lat" = some (Cell.str "")) ∧
    ((d.geometry.bind Geometry.location).bind Location.lng = none →
      (mkRecord d).lookup "lng" = some (Cell.str "")) ∧
    (∀ ds : List (List (String × Cell)),
      buildRows ds = headerRow :: ds.map rowFromDict) := by
  refine ⟨?_, ?_, ?_, ?_, ?_, ?_, ?_, ?_, ?_, ?_, fun ds => rfl⟩
  · intro h; simp [mkRecord, List.lookup, h]
  · intro h; simp [mkRecord, List.lookup, h]
  · intro h; simp [mkRecord, List.lookup, h]
  · intro h; simp [mkRecord, List.lookup, h]
  · intro h; simp [mkRecord, List.lookup, h]
  · intro h; simp [mkRecord, List.lookup, h, String.intercalate]
  · intro h; simp [mkRecord, List.lookup, h, cellOfNum]
  · intro h; simp [mkRecord, List.lookup, h, cellOfNum]
  · intro h
    have : latCell d = Cell.str "" := by
      unfold latCell
      cases hg : d.geometry with
      | none => rfl
      | some g =>
        cases hl : g.location with
        | none => simp [hl]
        | some l =>
          cases hv : l.lat with
          | none => simp [hl, hv]
          | some v => simp [hg, hl, hv] at h
    simp [mkRecord, List.lookup, this]
  · intro h
    have : lngCell d = Cell.str "" := by
      unfold lngCell
      cases hg : d.geometry with
      | none => rfl
      | some g =>
        cases hl : g.location with
        | none => simp [hl]
        | some l =>
          cases hv : l.lng with
          | none => simp [hl, hv]
          | some v => simp [hg, hl, hv] at h
    simp [mkRecord, List.lookup, this]

theorem detail_field_defaults_witness :
    (mkRecord emptyDetail).lookup "name" = some (Cell.str "") ∧
    (mkRecord emptyDetail).lookup "formatted_address" = some (Cell.str "") ∧
    (mkRecord emptyDetail).lookup "international_phone_number" =
      some (Cell.str "") ∧
    (mkRecord emptyDetail).lookup "website" = some (Cell.str "") ∧
    (mkRecord emptyDetail).lookup "place_id" = some (Cell.str "") ∧
    (mkRecord emptyDetail).lookup "types" = some (Cell.str "") ∧
    (mkRecord emptyDetail).lookup "rating" = some (Cell.str "") ∧
    (mkRecord emptyDetail).lookup "user_ratings_total" = some (Cell.str "") ∧
    (mkRecord emptyDetail).lookup "lat" = some (Cell.str "") ∧
    (mkRecord emptyDetail).lookup "lng" = some (Cell.str "") :=
  ⟨(detail_field_defaults emptyDetail).1 rfl,
   (detail_field_defaults emptyDetail).2.1 rfl,
   (detail_field_defaults emptyDetail).2.2.1 rfl,
   (detail_field_defaults emptyDetail).2.2.2.1 rfl,
   (detail_field_defaults emptyDetail).2.2.2.2.1 rfl,
   (detail_field_defaults emptyDetail).2.2.2.2.2.1 rfl,
   (detail_field_defaults emptyDetail).2.2.2.2.2.2.1 rfl,
   (detail_field_defaults emptyDetail).2.2.2.2.2.2.2.1 rfl,
   (detail_field_defaults emptyDetail).2.2.2.2.2.2.2.2.1 rfl,
   (detail_field_defaults emptyDetail).2.2.2.2.2.2.2.2.2.1 rfl⟩

/-- C2: the header is the fixed ten-name list; every row of the table built
by main (the header row included) has exactly those ten columns; the table of
any completed run is of that shape; and the row built for a record lists the
ten fields in exactly the header order. -/
theorem rows_fixed_column_order :
    header = ["name", "formatted_address", "international_phone_number",
      "website", "place_id", "types", "rating", "user_ratings_total",
      "lat", "lng"] ∧
    (∀ (detailed : List (List (String × Cell))) (row : List Cell),
      row ∈ buildRows detailed → row.length = header.length) ∧
    (∀ (key : String) (args : Args) (pages : List SearchResp)
      (detailOf : String → DetailResp) (sid : String) (out : MainOutput),
      mainRun key args pages detailOf sid = Except.ok out →
      ∃ detailed, out.rows = buildRows detailed) ∧
    (∀ d : DetailResult,
      rowFromDict (mkRecord d) =
        [Cell.str (d.name.getD ""), Cell.str (d.formatted_address.getD ""),
         Cell.str (d.international_phone_number.getD ""),
         Cell.str (d.website.getD ""), Cell.str (d.place_id.getD ""),
         Cell.str (String.intercalate "," (d.types.getD [])),
         cellOfNum d.rating, cellOfNum d.user_ratings_total,
         latCell d, lngCell d]) := by
  refine ⟨rfl, ?_, ?_, ?_⟩
  · intro detailed row hrow
    simp only [buildRows, List.mem_cons, List.mem_map] at hrow
    rcases hrow with h | ⟨d, _, h⟩
    · subst h; rfl
    · subst h
      simp [rowFromDict]
  · intro key args pages detailOf sid out h
    unfold mainRun at h
    cases hf : fetch_all_places key args.query pages with
    | error e => rw [hf] at h; cases h
    | ok v =>
      rw [hf] at h
      cases h
      exact ⟨(processPlaces detailOf v.1).1, rfl⟩
  · intro d
    simp [rowFromDict, mkRecord, header, List.lookup]

theorem rows_fixed_column_order_witness :
    headerRow.length = header.length ∧
    (∃ detailed,
      (MainOutput.mk [headerRow] "q" "S" [] false
          ("https://docs.google.com/spreadsheets/d/" ++ "S")).rows =
        buildRows detailed) :=
  ⟨rows_fixed_column_order.2.1 [] headerRow (by simp [buildRows]),
   rows_fixed_column_order.2.2.1 "k" ⟨"q", [], false⟩ [zeroResultsPage]
     (fun _ => ⟨none, none⟩) "S"
     (MainOutput.mk [headerRow] "q" "S" [] false
       ("https://docs.google.com/spreadsheets/d/" ++ "S")) rfl⟩

/-- Scenario for the end-to-end property: a single search page with three
results, of which the second fails its detail fetch. -/
def scenarioPages : List SearchResp :=
  [⟨some "OK", [⟨some "pidA"⟩, ⟨some "pidB"⟩, ⟨some "pidC"⟩], none⟩]

/-- Details for the first place of the scenario. -/
def detailA : DetailResult :=
  ⟨some "Cafe A", some "1 Main St", some "+1 555-0100", some "https://a.example",
   some "pidA", some ["cafe", "food"], some (9 / 2 : Rat), some 120,
   some ⟨some ⟨some (38 : Rat), some (-121 : Rat)⟩⟩⟩

/-- Details for the third place of the scenario. -/
def detailC : DetailResult :=
  ⟨some "Cafe C", some "3 Oak Ave", none, none, some "pidC",
   some ["cafe"], none, none, none⟩

/-- The details endpoint of the scenario: pidB is not found. -/
def scenarioDetails : String → DetailResp := fun pid =>
  if pid == "pidA" then ⟨some "OK", some detailA⟩
  else if pid == "pidC" then ⟨some "OK", some detailC⟩
  else ⟨some "NOT_FOUND", none⟩

/-- C7: in the scenario where the search returns 3 results and exactly 2
yield valid details, the completed run writes 1 header row plus 2 data rows,
creates the spreadsheet titled with the raw query string, and prints the URL
obtained by substituting the generated identifier into the fixed template. -/
theorem end_to_end_scenario (sid : String) :
    ∃ out : MainOutput,
      mainRun "k" ⟨"coffee shops in X", [], false⟩ scenarioPages
          scenarioDetails sid = Except.ok out ∧
      out.rows.length = 1 + 2 ∧
      out.rows.head? = some headerRow ∧
      out.createdTitle = "coffee shops in X" ∧
      out.url = "https://docs.google.com/spreadsheets/d/" ++ sid :=
  ⟨_, rfl, rfl, rfl, rfl, rfl⟩

/-- On a well-formed page sequence the pagination loop succeeds, returns the
concatenation of the results arrays in page order, and issues exactly the
initial request followed by one token-carrying request per non-final page. -/
theorem fetchPages_good (key : String) :
    ∀ (pages : List SearchResp) (req : SearchReq), goodPages pages = true →
      fetchPages key req pages =
        Except.ok ((pages.map SearchResp.results).flatten,
          req :: followUpReqs key pages)
  | [], _, h => by simp [goodPages] at h
  | [p], req, h => by
    rw [goodPages, Bool.and_eq_true] at h
    obtain ⟨h1, h2⟩ := h
    cases htok : p.next_page_token with
    | none => simp [fetchPages, h1, htok, followUpReqs]
    | some t =>
      rw [htok] at h2
      rw [tokenFalsy] at h2
      simp [fetchPages, h1, htok, h2, followUpReqs]
  | p :: q :: rest, req, h => by
    rw [goodPages, Bool.and_eq_true, Bool.and_eq_true] at h
    obtain ⟨⟨h1, h2⟩, h3⟩ := h
    cases htok : p.next_page_token with
    | none => rw [htok] at h2; simp [tokenFalsy] at h2
    | some t =>
      rw [htok] at h2
      have ht : (t == "") = false := by
        rw [tokenFalsy] at h2
        cases hte : t == "" with
        | false => rfl
        | true => rw [hte] at h2; simp at h2
      have ih := fetchPages_good key (q :: rest) (SearchReq.byToken t key) h3
      rw [fetchPages.eq_def]
      simp [h1, htok, ht, ih, followUpReqs]

/-- On a well-formed page sequence there is exactly one follow-up request per
non-final page, so with the initial request the client issues exactly one
request per page consumed. -/
theorem followUpReqs_good_length (key : String) :
    ∀ pages : List SearchResp, goodPages pages = true →
      (followUpReqs key pages).length + 1 = pages.length
  | [], h => by simp [goodPages] at h
  | [_], _ => by simp [followUpReqs]
  | p :: q :: rest, h => by
    rw [goodPages, Bool.and_eq_true, Bool.and_eq_true] at h
    obtain ⟨⟨_, h2⟩, h3⟩ := h
    have ih := followUpReqs_good_length key (q :: rest) h3
    cases htok : p.next_page_token with
    | none => rw [htok] at h2; simp [tokenFalsy] at h2
    | some t =>
      rw [followUpReqs, htok]
      simp only [List.length_append, List.length_cons, List.length_nil] at ih ⊢
      omega

/-- C1: over a well-formed page sequence (every status accepted, every page
but the last carrying a truthy token), fetch_all_places issues the query
request followed by exactly one follow-up request per token, each follow-up
carrying that token in place of the query, and returns the concatenation of
the results arrays of the pages in page order. -/
theorem fetch_all_places_pagination (key query : String)
    (pages : List SearchResp) (h : goodPages pages = true) :
    fetch_all_places key query pages =
      Except.ok ((pages.map SearchResp.results).flatten,
        SearchReq.byQuery query key :: followUpReqs key pages) ∧
    (SearchReq.byQuery query key :: followUpReqs key pages).length =
      pages.length := by
  refine ⟨fetchPages_good key pages (SearchReq.byQuery query key) h, ?_⟩
  have := followUpReqs_good_length key pages h
  simp only [List.length_cons]
  omega

/-- A two-page sequence for exercising the pagination theorem. -/
def wPages : List SearchResp :=
  [⟨some "OK", [⟨some "r1"⟩], some "tokA"⟩,
   ⟨some "OK", [⟨some "r2"⟩], none⟩]

theorem fetch_all_places_pagination_witness :
    goodPages wPages = true ∧
    (fetch_all_places "k" "q" wPages =
        Except.ok ((wPages.map SearchResp.results).flatten,
          SearchReq.byQuery "q" "k" :: followUpReqs "k" wPages) ∧
      (SearchReq.byQuery "q" "k" :: followUpReqs "k" wPages).length =
        wPages.length) :=
  ⟨by decide, fetch_all_places_pagination "k" "q" wPages (by decide)⟩
